import Mathlib

/-!
Shallow embedding of the BentWizard timber-frame joint system.

The embedding follows the Python sources:
* `src/joints/intersection.py` — segment closest approach, intersection
  classification, joint coordinate system construction;
* `src/joints/base.py` — the `JointParameter` / `ParameterSet` model with
  override management and JSON serialization;
* `src/joints/builtin/through_mortise_tenon.py`,
  `src/joints/builtin/half_lap.py`,
  `src/joints/builtin/housed_dovetail.py` — parameter derivation, peg
  placement and validation of the three built-in joint definitions.

Modelling conventions: Python floats are modelled as real numbers for the
geometric pipeline (square roots and arc cosines are genuinely real-valued)
and as exact rationals for the parameter model, which is kept fully
executable so that concrete instances can be checked by `decide`.
Fallible Python code (KeyError on a missing parameter, TypeError on an
unordered comparison) is modelled with `Option`.
-/

-- ---------------------------------------------------------------------------
-- Vectors (FreeCAD.Vector)
-- ---------------------------------------------------------------------------

/-- A 3-component vector over a scalar type, modelling `FreeCAD.Vector`. -/
@[ext]
structure V3 (α : Type) where
  x : α
  y : α
  z : α
  deriving DecidableEq, Repr

instance {α : Type} [Add α] : Add (V3 α) :=
  ⟨fun a b => ⟨a.x + b.x, a.y + b.y, a.z + b.z⟩⟩

instance {α : Type} [Sub α] : Sub (V3 α) :=
  ⟨fun a b => ⟨a.x - b.x, a.y - b.y, a.z - b.z⟩⟩

instance {α : Type} [Mul α] : SMul α (V3 α) :=
  ⟨fun k v => ⟨k * v.x, k * v.y, k * v.z⟩⟩

/-- Dot product (`Vector.dot`). -/
def dotv {α : Type} [Mul α] [Add α] (a b : V3 α) : α :=
  a.x * b.x + a.y * b.y + a.z * b.z

/-- Cross product (`Vector.cross`). -/
def crossv {α : Type} [Mul α] [Sub α] (a b : V3 α) : V3 α :=
  ⟨a.y * b.z - a.z * b.y, a.z * b.x - a.x * b.z, a.x * b.y - a.y * b.x⟩

/-- Euclidean length (`Vector.Length`). -/
noncomputable def vnorm (v : V3 ℝ) : ℝ :=
  Real.sqrt (dotv v v)

/-- Componentwise division by the length (`Vector.normalize`). -/
noncomputable def vnormalize (v : V3 ℝ) : V3 ℝ :=
  ⟨v.x / vnorm v, v.y / vnorm v, v.z / vnorm v⟩

-- ---------------------------------------------------------------------------
-- Member local coordinate system (_member_local_cs, duplicated in the three
-- joint modules and in TimberMember._build_solid)
-- ---------------------------------------------------------------------------

/-- Local frame (origin, along-axis, width-axis, height-axis) of a member
datum, per `_member_local_cs`: the along-axis is the normalized datum
direction; an up hint (world Z, or world Y when nearly vertical) gives
width-axis = along x up, height-axis = width x along, both normalized.
Degenerate datums fall back to the world frame. -/
noncomputable def member_local_cs (s e : V3 ℝ) : V3 ℝ × V3 ℝ × V3 ℝ × V3 ℝ :=
  let direction := e - s
  let length := vnorm direction
  if length < 1e-6 then
    (s, ⟨1, 0, 0⟩, ⟨0, 1, 0⟩, ⟨0, 0, 1⟩)
  else
    let x_axis := vnormalize direction
    let up_hint : V3 ℝ :=
      if |dotv x_axis ⟨0, 0, 1⟩| > 0.999 then ⟨0, 1, 0⟩ else ⟨0, 0, 1⟩
    let y_axis := vnormalize (crossv x_axis up_hint)
    let z_axis := vnormalize (crossv y_axis x_axis)
    (s, x_axis, y_axis, z_axis)

-- ---------------------------------------------------------------------------
-- Segment-to-segment closest approach (intersection.closest_approach_segments)
-- ---------------------------------------------------------------------------

/-- Return tuple of `closest_approach_segments`: closest point on each
segment, their distance, and the fractional parameters. -/
structure CAResult where
  pt_on_1 : V3 ℝ
  pt_on_2 : V3 ℝ
  dist : ℝ
  t1 : ℝ
  t2 : ℝ

/-- Clamp to the unit interval, as `max(0.0, min(1.0, x))`. -/
def clamp01 {α : Type} [LinearOrder α] [Zero α] [One α] (v : α) : α :=
  max 0 (min 1 v)

/-- Closest approach between segments `p1`-`d1` and `p2`-`d2`, following
`closest_approach_segments`: solve the unconstrained 2x2 system (falling
back to an endpoint projection when the determinant is tiny), then clamp
the first parameter, recompute and clamp the second, and recompute and
clamp the first again.  (The parameter `t` assigned inside the
near-parallel branch of the source is dead: it is unconditionally
recomputed from the clamped `s` before use.) -/
noncomputable def closest_approach_segments (p1 d1 p2 d2 : V3 ℝ) : CAResult :=
  let u := d1 - p1
  let v := d2 - p2
  let w := p1 - p2
  let a := dotv u u
  let b := dotv u v
  let c := dotv v v
  let d_val := dotv u w
  let e := dotv v w
  let denom := a * c - b * b
  let s0 : ℝ := if denom < 1e-10 then 0 else (b * e - c * d_val) / denom
  let s1 := clamp01 s0
  let t1 := clamp01 (if c > 1e-10 then (b * s1 + e) / c else 0)
  let s2 := clamp01 (if a > 1e-10 then (b * t1 - d_val) / a else 0)
  let pt1 := p1 + s2 • u
  let pt2 := p2 + t1 • v
  ⟨pt1, pt2, vnorm (pt1 - pt2), s2, t1⟩

-- ---------------------------------------------------------------------------
-- Intersection classification (intersection.classify_intersection)
-- ---------------------------------------------------------------------------

/-- Classify an intersection from the fractional parameters, per
`classify_intersection`: a parameter within `threshold` of 0 or 1 counts
as an endpoint. -/
noncomputable def classify_intersection (t1 t2 : ℝ) (threshold : ℝ := 0.02) :
    String :=
  let ep1 := t1 ≤ threshold ∨ t1 ≥ 1 - threshold
  let ep2 := t2 ≤ threshold ∨ t2 ≥ 1 - threshold
  if ep1 ∧ ep2 then "EndpointToEndpoint"
  else if ep1 ∨ ep2 then "EndpointToMidpoint"
  else "MidpointToMidpoint"

-- ---------------------------------------------------------------------------
-- Joint coordinate system (base.JointCoordinateSystem, intersection.compute_joint_cs)
-- ---------------------------------------------------------------------------

/-- Local coordinate system at a joint intersection (`JointCoordinateSystem`
in `base.py`), generic in the scalar type: the geometric pipeline uses real
scalars, while the executable parameter-side functions use rationals. -/
structure JointCoordinateSystem (α : Type) where
  origin : V3 α
  primary_axis : V3 α
  secondary_axis : V3 α
  normal : V3 α
  angle : α
  deriving Repr

/-- Unsigned intersection angle in degrees: `degrees(acos(abs(clamped
cosine)))`, exactly as computed inside `compute_joint_cs`. -/
noncomputable def unsigned_angle_deg (p_axis s_axis : V3 ℝ) : ℝ :=
  Real.arccos |max (-1) (min 1 (dotv p_axis s_axis))| * 180 / Real.pi

/-- Build a `JointCoordinateSystem` from the two members' datum endpoints
and the intersection point, per `compute_joint_cs`: reject degenerate
datum directions (length below 1e-6) and near-parallel datums (unsigned
angle below 5 degrees); the normal is the normalized cross product, with
a fallback frame derived from the primary axis when the cross product is
near zero (scarf-joint case). -/
noncomputable def compute_joint_cs (p_start p_end s_start s_end ipt : V3 ℝ) :
    Option (JointCoordinateSystem ℝ) :=
  let p_dir := p_end - p_start
  let s_dir := s_end - s_start
  if vnorm p_dir < 1e-6 ∨ vnorm s_dir < 1e-6 then none
  else
    let p_axis := vnormalize p_dir
    let s_axis := vnormalize s_dir
    let angle_deg := unsigned_angle_deg p_axis s_axis
    if angle_deg < 5 then none
    else
      let normal0 := crossv p_axis s_axis
      let normal : V3 ℝ :=
        if vnorm normal0 < 1e-6 then
          let up_hint : V3 ℝ :=
            if |dotv p_axis ⟨0, 0, 1⟩| > 0.999 then ⟨0, 1, 0⟩ else ⟨0, 0, 1⟩
          let y_tmp := vnormalize (crossv p_axis up_hint)
          vnormalize (crossv y_tmp p_axis)
        else vnormalize normal0
      some ⟨ipt, p_axis, s_axis, normal, angle_deg⟩

-- ---------------------------------------------------------------------------
-- Parameter values
-- ---------------------------------------------------------------------------

/-- A Python parameter value: a number (int or float, modelled as an exact
rational), a string, a boolean, or `None`.  These are the value shapes the
joint system stores in `JointParameter.default_value` / `value` /
`min_value` / `max_value`. -/
inductive PValue where
  | pnum (q : ℚ)
  | pstr (s : String)
  | pbool (b : Bool)
  | pnone
  deriving DecidableEq, Repr

/-- Numeric view of a value for Python comparisons: booleans compare as the
integers 0 and 1. -/
def PValue.asNum : PValue → Option ℚ
  | .pnum q => some q
  | .pbool b => some (if b then 1 else 0)
  | _ => none

/-- The Python `<` on two parameter values: defined for number/boolean
pairs and for string pairs, a `TypeError` (none) otherwise. -/
def pvLt (a b : PValue) : Option Bool :=
  match a.asNum, b.asNum with
  | some qa, some qb => some (decide (qa < qb))
  | _, _ =>
    match a, b with
    | .pstr sa, .pstr sb => some (decide (sa < sb))
    | _, _ => none

/-- The Python `<=` on two parameter values, with the same domain as
`pvLt`. -/
def pvLe (a b : PValue) : Option Bool :=
  match a.asNum, b.asNum with
  | some qa, some qb => some (decide (qa ≤ qb))
  | _, _ =>
    match a, b with
    | .pstr sa, .pstr sb => some (decide (sa ≤ sb))
    | _, _ => none

-- ---------------------------------------------------------------------------
-- JointParameter and ParameterSet (base.py)
-- ---------------------------------------------------------------------------

/-- A single typed joint parameter (`JointParameter` in `base.py`).
`min_value` / `max_value` use `PValue.pnone` for Python `None`. -/
structure JointParameter where
  name : String
  param_type : String
  default_value : PValue
  value : PValue
  is_overridden : Bool := false
  min_value : PValue := .pnone
  max_value : PValue := .pnone
  enum_options : List String := []
  group : String := "General"
  description : String := ""
  deriving DecidableEq, Repr

/-- An ordered collection of joint parameters (`ParameterSet`).  The Python
class keeps a dict keyed by name plus an insertion-order list; both are
modelled by the ordered list itself (Python-reachable states have one
parameter object per name). -/
abbrev ParameterSet : Type := List JointParameter

/-- Find a parameter by name (`self._params[name]`, first match). -/
def psFind (ps : ParameterSet) (name : String) : Option JointParameter :=
  List.find? (fun p => p.name = name) ps

/-- Effective value of a named parameter (`ParameterSet.get`), `none` when
the name is missing (Python `KeyError`). -/
def psGet (ps : ParameterSet) (name : String) : Option PValue :=
  (psFind ps name).map (·.value)

/-- Effective value of a named parameter as a number; `none` when the name
is missing or the value is not numeric (the callers immediately use the
value in an ordered comparison against a float, which would raise). -/
def psGetNum (ps : ParameterSet) (name : String) : Option ℚ :=
  (psGet ps name).bind PValue.asNum

/-- The names of the parameters in definition order (the first components
of `ParameterSet.items()`). -/
def psNames (ps : ParameterSet) : List String :=
  ps.map (·.name)

/-- Clamp a candidate override to the parameter's bounds, per the body of
`ParameterSet.set_override`: compare against `min_value` when it is not
`None` (replacing the candidate by the bound when below it), then likewise
against `max_value`.  `none` models a Python `TypeError` from an unordered
comparison. -/
def clampToBounds (p : JointParameter) (v : PValue) : Option PValue := do
  let v1 ←
    if p.min_value = .pnone then pure v
    else do
      let lt ← pvLt v p.min_value
      pure (if lt then p.min_value else v)
  if p.max_value = .pnone then pure v1
  else do
    let gt ← pvLt p.max_value v1
    pure (if gt then p.max_value else v1)

/-- Set a user override (`ParameterSet.set_override`): clamp to bounds,
store, and mark the parameter overridden.  `none` models a `KeyError`
(missing name) or `TypeError` (unordered bound comparison). -/
def set_override (ps : ParameterSet) (name : String) (v : PValue) :
    Option ParameterSet := do
  let p ← psFind ps name
  let v' ← clampToBounds p v
  pure (ps.map fun q =>
    if q.name = name then { q with value := v', is_overridden := true } else q)

/-- Revert a parameter to its derived default (`ParameterSet.clear_override`).
`none` models a `KeyError`. -/
def clear_override (ps : ParameterSet) (name : String) : Option ParameterSet := do
  let _ ← psFind ps name
  pure (ps.map fun q =>
    if q.name = name then
      { q with value := q.default_value, is_overridden := false }
    else q)

/-- Recalculate derived defaults (`ParameterSet.update_defaults`): every
parameter named in the supplied mapping adopts the new default
unconditionally, and additionally adopts it as its effective value when it
is not overridden; names absent from the set are skipped. -/
def update_defaults (ps : ParameterSet) (new_defaults : List (String × PValue)) :
    ParameterSet :=
  ps.map fun p =>
    match new_defaults.lookup p.name with
    | none => p
    | some nv =>
      { p with
        default_value := nv
        value := if p.is_overridden then p.value else nv }

-- ---------------------------------------------------------------------------
-- JSON serialization (ParameterSet.to_json / from_json)
-- ---------------------------------------------------------------------------

/-- A JSON document tree.  `json.dumps` with fixed separators is a
deterministic, injective function of this tree (object key order is
preserved by Python dicts), so two serializations produce identical
strings exactly when their trees are equal; the string layer itself is
not re-modelled. -/
inductive Json where
  | null
  | jbool (b : Bool)
  | jnum (q : ℚ)
  | jstr (s : String)
  | jarr (items : List Json)
  | jobj (fields : List (String × Json))
  deriving Repr

/-- Encode a parameter value as JSON. -/
def encodePValue : PValue → Json
  | .pnum q => .jnum q
  | .pstr s => .jstr s
  | .pbool b => .jbool b
  | .pnone => .null

/-- Decode a JSON value back into a parameter value; `none` on arrays and
objects, which the typed parameter model does not store. -/
def decodePValue : Json → Option PValue
  | .jnum q => some (.pnum q)
  | .jstr s => some (.pstr s)
  | .jbool b => some (.pbool b)
  | .null => some .pnone
  | _ => none

/-- Decode a JSON string. -/
def decodeStr : Json → Option String
  | .jstr s => some s
  | _ => none

/-- Decode a JSON boolean. -/
def decodeBool : Json → Option Bool
  | .jbool b => some b
  | _ => none

/-- Decode a JSON array of strings. -/
def decodeStrList : Json → Option (List String)
  | .jarr items => items.mapM decodeStr
  | _ => none

/-- Serialize one parameter as the ten-field object emitted by
`ParameterSet.to_json`, fields in source order. -/
def encodeParam (p : JointParameter) : Json :=
  .jobj [
    ("name", .jstr p.name),
    ("param_type", .jstr p.param_type),
    ("default_value", encodePValue p.default_value),
    ("value", encodePValue p.value),
    ("is_overridden", .jbool p.is_overridden),
    ("min_value", encodePValue p.min_value),
    ("max_value", encodePValue p.max_value),
    ("enum_options", .jarr (p.enum_options.map Json.jstr)),
    ("group", .jstr p.group),
    ("description", .jstr p.description)]

/-- Serialize a `ParameterSet` (`ParameterSet.to_json`): the ordered list
of per-parameter objects. -/
def to_json (ps : ParameterSet) : Json :=
  .jarr (ps.map encodeParam)

/-- Read one parameter record, per the loop body of
`ParameterSet.from_json`: `name`, `param_type`, `default_value` and
`value` are required (`d[...]`), the remaining fields use `d.get`
defaults when absent. -/
def decodeParam : Json → Option JointParameter
  | .jobj d => do
    let name ← (d.lookup "name").bind decodeStr
    let param_type ← (d.lookup "param_type").bind decodeStr
    let default_value ← (d.lookup "default_value").bind decodePValue
    let value ← (d.lookup "value").bind decodePValue
    let is_overridden ←
      match d.lookup "is_overridden" with
      | none => some false
      | some j => decodeBool j
    let min_value ←
      match d.lookup "min_value" with
      | none => some .pnone
      | some j => decodePValue j
    let max_value ←
      match d.lookup "max_value" with
      | none => some .pnone
      | some j => decodePValue j
    let enum_options ←
      match d.lookup "enum_options" with
      | none => some []
      | some j => decodeStrList j
    let group ←
      match d.lookup "group" with
      | none => some "General"
      | some j => decodeStr j
    let description ←
      match d.lookup "description" with
      | none => some ""
      | some j => decodeStr j
    pure ⟨name, param_type, default_value, value, is_overridden,
          min_value, max_value, enum_options, group, description⟩
  | _ => none

/-- Deserialize a `ParameterSet` (`ParameterSet.from_json`). -/
def from_json : Json → Option ParameterSet
  | .jarr items => items.mapM decodeParam
  | _ => none

-- ---------------------------------------------------------------------------
-- Joint output types (base.py)
-- ---------------------------------------------------------------------------

/-- A single validation finding (`ValidationResult`).  The interpolated
numeric values of the source's message strings are elided; claims are
stated over `level` and `code`. -/
structure ValidationResult where
  level : String
  message : String
  code : String := ""
  deriving DecidableEq, Repr

/-- A single drawbore peg (`PegDefinition`), in joint local coordinates. -/
structure PegDefinition where
  center : V3 ℚ
  diameter : ℚ
  length : ℚ
  axis : V3 ℚ
  offset : ℚ := 0
  deriving DecidableEq, Repr

/-- Python `int()` truncation toward zero on a rational. -/
def ratTrunc (q : ℚ) : ℤ :=
  if 0 ≤ q then ⌊q⌋ else ⌈q⌉

-- ---------------------------------------------------------------------------
-- Through Mortise and Tenon (builtin/through_mortise_tenon.py)
-- ---------------------------------------------------------------------------

/-- Valid intersection-angle range of the through mortise-and-tenon. -/
def TMT_MIN_ANGLE : ℚ := 45
/-- Upper end of the through mortise-and-tenon angle range. -/
def TMT_MAX_ANGLE : ℚ := 135

/-- Derived defaults of `ThroughMortiseTenonDefinition.get_parameters`.
The method reads only `primary.Width`, `secondary.Width` and
`secondary.Height`; those are the arguments here. -/
def tmt_get_parameters (pri_w sec_w sec_h : ℚ) : ParameterSet :=
  let tenon_width := sec_w / 3
  let tenon_height := sec_h * 0.75
  let tenon_length := pri_w
  let mortise_width := tenon_width + 2 * 1.6
  let mortise_height := tenon_height + 2 * 1.6
  let shoulder_depth := (sec_h - tenon_height) / 2
  let peg_diameter : ℚ := 25.4
  let peg_count : ℚ := if sec_h ≥ 150 then 2 else 1
  let peg_edge_distance := peg_diameter * 2.5
  let peg_spacing := if peg_count > 1 then tenon_height - 2 * peg_edge_distance else 0
  let drawbore_offset : ℚ := 3.2
  [{ name := "tenon_width", param_type := "length",
     default_value := .pnum tenon_width, value := .pnum tenon_width,
     min_value := .pnum 20, max_value := .pnum (sec_w * 0.9),
     group := "Tenon", description := "Width of the tenon" },
   { name := "tenon_height", param_type := "length",
     default_value := .pnum tenon_height, value := .pnum tenon_height,
     min_value := .pnum 20, max_value := .pnum (sec_h * 0.9),
     group := "Tenon", description := "Height of the tenon" },
   { name := "tenon_length", param_type := "length",
     default_value := .pnum tenon_length, value := .pnum tenon_length,
     min_value := .pnum (pri_w * 0.5), max_value := .pnum (pri_w * 1.5),
     group := "Tenon", description := "Length of the tenon (through primary)" },
   { name := "mortise_width", param_type := "length",
     default_value := .pnum mortise_width, value := .pnum mortise_width,
     min_value := .pnum 20,
     group := "Mortise", description := "Width of the mortise opening" },
   { name := "mortise_height", param_type := "length",
     default_value := .pnum mortise_height, value := .pnum mortise_height,
     min_value := .pnum 20,
     group := "Mortise", description := "Height of the mortise opening" },
   { name := "shoulder_depth", param_type := "length",
     default_value := .pnum shoulder_depth, value := .pnum shoulder_depth,
     min_value := .pnum 0,
     group := "Tenon", description := "Depth of the shoulder (top and bottom)" },
   { name := "peg_diameter", param_type := "length",
     default_value := .pnum peg_diameter, value := .pnum peg_diameter,
     min_value := .pnum 12, max_value := .pnum 38,
     group := "Pegs", description := "Peg diameter" },
   { name := "peg_count", param_type := "integer",
     default_value := .pnum peg_count, value := .pnum peg_count,
     min_value := .pnum 0, max_value := .pnum 4,
     group := "Pegs", description := "Number of pegs" },
   { name := "peg_spacing", param_type := "length",
     default_value := .pnum peg_spacing, value := .pnum peg_spacing,
     min_value := .pnum 0,
     group := "Pegs", description := "Spacing between pegs" },
   { name := "peg_edge_distance", param_type := "length",
     default_value := .pnum peg_edge_distance, value := .pnum peg_edge_distance,
     min_value := .pnum (peg_diameter * 1.5),
     group := "Pegs", description := "Minimum distance from peg to tenon edge" },
   { name := "drawbore_offset", param_type := "length",
     default_value := .pnum drawbore_offset, value := .pnum drawbore_offset,
     min_value := .pnum 0, max_value := .pnum 6,
     group := "Pegs", description := "Drawbore offset (0 = no drawbore)" }]

/-- Drawbore peg construction (`ThroughMortiseTenonDefinition.build_pegs`).
The primary member's width axis `pri_y` and height axis `pri_z` (computed
by `_member_local_cs` in the source) and `primary.Width` are passed as
arguments.  The source reads `peg_edge_distance` and `tenon_height`
without using them in the placement; the reads are kept because a missing
name raises.  Numeric-typed parameters are read as numbers. -/
def tmt_build_pegs (ps : ParameterSet) (origin pri_y pri_z : V3 ℚ)
    (pri_w : ℚ) : Option (List PegDefinition) := do
  let count := ratTrunc (← psGetNum ps "peg_count")
  if count ≤ 0 then pure []
  else do
    let diameter ← psGetNum ps "peg_diameter"
    let spacing ← psGetNum ps "peg_spacing"
    let _edge_dist ← psGetNum ps "peg_edge_distance"
    let _th ← psGetNum ps "tenon_height"
    let drawbore ← psGetNum ps "drawbore_offset"
    let offsets : List ℚ :=
      if count = 1 then [0]
      else
        let half_span := spacing / 2
        (List.range count.toNat).map
          (fun i => -half_span + (i : ℚ) * spacing / ((count : ℚ) - 1))
    pure (offsets.map fun off_z =>
      { center := origin + off_z • pri_z
        diameter := diameter
        length := pri_w + 20
        axis := pri_y
        offset := drawbore })

/-- Validation of the through mortise-and-tenon
(`ThroughMortiseTenonDefinition.validate`), findings in source order. -/
def tmt_validate (ps : ParameterSet) (sec_w sec_h : ℚ)
    (jcs : JointCoordinateSystem ℚ) : Option (List ValidationResult) := do
  let th ← psGetNum ps "tenon_height"
  let tw ← psGetNum ps "tenon_width"
  let peg_d ← psGetNum ps "peg_diameter"
  let peg_edge ← psGetNum ps "peg_edge_distance"
  let cheek := (sec_w - tw) / 2
  pure ((if th > sec_h * 0.8 then
          [⟨"warning", "Tenon height exceeds 80% of member height.",
            "TENON_TOO_TALL"⟩] else [])
    ++ (if cheek < 10 then
          [⟨"error", "Cheek thickness is too thin.", "CHEEK_TOO_THIN"⟩]
        else [])
    ++ (if peg_edge < peg_d * 1.5 then
          [⟨"warning", "Peg edge distance is less than 1.5x peg diameter.",
            "PEG_EDGE_DISTANCE"⟩] else [])
    ++ (if jcs.angle < TMT_MIN_ANGLE ∨ jcs.angle > TMT_MAX_ANGLE then
          [⟨"error", "Intersection angle is outside the valid range.",
            "ANGLE_OUT_OF_RANGE"⟩] else []))

-- ---------------------------------------------------------------------------
-- Half Lap (builtin/half_lap.py)
-- ---------------------------------------------------------------------------

/-- Valid intersection-angle range of the half lap. -/
def HALF_LAP_MIN_ANGLE : ℚ := 60
/-- Upper end of the half-lap angle range. -/
def HALF_LAP_MAX_ANGLE : ℚ := 120

/-- Derived defaults of `HalfLapDefinition.get_parameters`, which reads the
width and height of both members. -/
def half_lap_get_parameters (pri_w pri_h sec_w sec_h : ℚ) : ParameterSet :=
  let clearance : ℚ := 1.6
  [{ name := "lap_depth_primary", param_type := "length",
     default_value := .pnum (pri_h / 2), value := .pnum (pri_h / 2),
     min_value := .pnum (pri_h * 0.25), max_value := .pnum (pri_h * 0.75),
     group := "Lap", description := "Depth of notch in primary member" },
   { name := "lap_depth_secondary", param_type := "length",
     default_value := .pnum (sec_h / 2), value := .pnum (sec_h / 2),
     min_value := .pnum (sec_h * 0.25), max_value := .pnum (sec_h * 0.75),
     group := "Lap", description := "Depth of notch in secondary member" },
   { name := "lap_width_primary", param_type := "length",
     default_value := .pnum (sec_w + clearance), value := .pnum (sec_w + clearance),
     min_value := .pnum (sec_w * 0.5),
     group := "Lap", description := "Width of notch in primary (accepts secondary)" },
   { name := "lap_width_secondary", param_type := "length",
     default_value := .pnum (pri_w + clearance), value := .pnum (pri_w + clearance),
     min_value := .pnum (pri_w * 0.5),
     group := "Lap", description := "Width of notch in secondary (accepts primary)" }]

/-- Validation of the half lap (`HalfLapDefinition.validate`). -/
def half_lap_validate (ps : ParameterSet) (pri_h sec_h : ℚ)
    (jcs : JointCoordinateSystem ℚ) : Option (List ValidationResult) := do
  let lap_d_pri ← psGetNum ps "lap_depth_primary"
  let lap_d_sec ← psGetNum ps "lap_depth_secondary"
  pure ((if lap_d_pri > pri_h * 0.6 then
          [⟨"warning", "Primary lap depth exceeds 60% of member height.",
            "LAP_TOO_DEEP"⟩] else [])
    ++ (if lap_d_sec > sec_h * 0.6 then
          [⟨"warning", "Secondary lap depth exceeds 60% of member height.",
            "LAP_TOO_DEEP"⟩] else [])
    ++ (if jcs.angle < HALF_LAP_MIN_ANGLE ∨ jcs.angle > HALF_LAP_MAX_ANGLE then
          [⟨"error", "Intersection angle is outside the valid range.",
            "ANGLE_OUT_OF_RANGE"⟩] else []))

-- ---------------------------------------------------------------------------
-- Dovetail (builtin/housed_dovetail.py)
-- ---------------------------------------------------------------------------

/-- Valid intersection-angle range of the dovetail. -/
def DOVETAIL_MIN_ANGLE : ℚ := 75
/-- Upper end of the dovetail angle range. -/
def DOVETAIL_MAX_ANGLE : ℚ := 105

/-- Validation of the dovetail (`DovetailDefinition.validate`). -/
def dovetail_validate (ps : ParameterSet) (pri_w sec_w sec_h : ℚ)
    (jcs : JointCoordinateSystem ℚ) : Option (List ValidationResult) := do
  let tail_h ← psGetNum ps "tail_height"
  let narrow_w ← psGetNum ps "tail_width_narrow"
  let slot_d ← psGetNum ps "slot_depth"
  pure ((if tail_h > sec_h * 0.7 then
          [⟨"warning", "Dovetail height exceeds 70% of secondary member height.",
            "DOVETAIL_TOO_TALL"⟩] else [])
    ++ (if narrow_w > sec_w * 0.8 then
          [⟨"warning", "Dovetail narrow width exceeds 80% of secondary member width.",
            "DOVETAIL_TOO_WIDE"⟩] else [])
    ++ (if slot_d > pri_w * 0.6 then
          [⟨"warning", "Slot depth exceeds 60% of primary member width.",
            "SLOT_TOO_DEEP"⟩] else [])
    ++ (if jcs.angle < DOVETAIL_MIN_ANGLE ∨ jcs.angle > DOVETAIL_MAX_ANGLE then
          [⟨"error", "Intersection angle is outside the valid range.",
            "ANGLE_OUT_OF_RANGE"⟩] else []))

-- ---------------------------------------------------------------------------
-- Spec-side formulas for the refinement comparisons
-- ---------------------------------------------------------------------------

/-- In-plane approach direction of the secondary at the primary's
cross-section: the secondary along-axis minus its component along the
primary along-axis, normalized, with the primary width-axis fallback for
a degenerate projection (the `sec_in_plane` computation of
`build_primary_tool`). -/
noncomputable def sec_in_plane_dir (p_start p_end s_start s_end : V3 ℝ) : V3 ℝ :=
  let pcs := member_local_cs p_start p_end
  let scs := member_local_cs s_start s_end
  let p_axis := pcs.2.1
  let s_axis := scs.2.1
  let raw := s_axis - dotv s_axis p_axis • p_axis
  if vnorm raw < 1e-6 then pcs.2.2.1 else vnormalize raw

/-- Follows the spec wording of claim C1 (not the source): the tenon
through-span obtained by projecting the secondary's in-plane approach
direction onto the primary's cross-section and summing the weighted
width/height extents of the primary. -/
noncomputable def claimed_through_span (p_start p_end s_start s_end : V3 ℝ)
    (pri_w pri_h : ℝ) : ℝ :=
  let pcs := member_local_cs p_start p_end
  let dir := sec_in_plane_dir p_start p_end s_start s_end
  |dotv dir pcs.2.2.1| * pri_w + |dotv dir pcs.2.2.2| * pri_h

/-- Follows the spec wording of claim C7 (not the source): the half-lap
notch width as the opposing member's footprint projected onto this
member's along-axis, plus the fixed clearance, floored at 10 length
units. -/
noncomputable def claimed_lap_width (p_start p_end opp_start opp_end : V3 ℝ)
    (opp_w opp_h : ℝ) : ℝ :=
  let pcs := member_local_cs p_start p_end
  let ocs := member_local_cs opp_start opp_end
  let axis := pcs.2.1
  let footprint := |dotv ocs.2.2.1 axis| * opp_w + |dotv ocs.2.2.2 axis| * opp_h
  max (footprint + 1.6) 10

-- ---------------------------------------------------------------------------
-- Invariants of the parameter model
-- ---------------------------------------------------------------------------

/-- The `JointParameter` invariant stated by the spec: the effective value
lies within the bounds whenever they are present, and a non-overridden
parameter's effective value equals its default. -/
def param_invariant (p : JointParameter) : Prop :=
  (p.min_value ≠ .pnone → pvLe p.min_value p.value = some true) ∧
  (p.max_value ≠ .pnone → pvLe p.value p.max_value = some true) ∧
  (p.is_overridden = false → p.value = p.default_value)

instance (p : JointParameter) : Decidable (param_invariant p) := by
  unfold param_invariant; infer_instance

/-- Set-level form of `param_invariant`. -/
def set_invariant (ps : ParameterSet) : Prop :=
  ∀ p ∈ ps, param_invariant p

instance (ps : ParameterSet) : Decidable (set_invariant ps) := by
  unfold set_invariant
  exact List.decidableBAll _ ps

/-- Strengthening of `param_invariant` under which all three mutating
operations are invariant-preserving: the default value itself also lies
within the bounds whenever they are present. -/
def param_invariant_strong (p : JointParameter) : Prop :=
  param_invariant p ∧
  (p.min_value ≠ .pnone → pvLe p.min_value p.default_value = some true) ∧
  (p.max_value ≠ .pnone → pvLe p.default_value p.max_value = some true)

instance (p : JointParameter) : Decidable (param_invariant_strong p) := by
  unfold param_invariant_strong; infer_instance

/-- Set-level form of `param_invariant_strong`. -/
def set_invariant_strong (ps : ParameterSet) : Prop :=
  ∀ p ∈ ps, param_invariant_strong p

instance (ps : ParameterSet) : Decidable (set_invariant_strong ps) := by
  unfold set_invariant_strong
  exact List.decidableBAll _ ps

/-- The supplied new defaults respect the bounds of the parameters they
target (`update_defaults` itself performs no clamping). -/
def defaults_respect_bounds (ps : ParameterSet)
    (new_defaults : List (String × PValue)) : Prop :=
  ∀ p ∈ ps, ∀ v, new_defaults.lookup p.name = some v →
    (p.min_value ≠ .pnone → pvLe p.min_value v = some true) ∧
    (p.max_value ≠ .pnone → pvLe v p.max_value = some true)

instance (ps : ParameterSet) (nd : List (String × PValue)) :
    Decidable (defaults_respect_bounds ps nd) := by
  unfold defaults_respect_bounds
  exact List.decidableBAll _ ps

/-- The second half of the `JointParameter` invariant on its own: a
non-overridden parameter's effective value equals its default. -/
def value_default_clause (p : JointParameter) : Prop :=
  p.is_overridden = false → p.value = p.default_value

instance (p : JointParameter) : Decidable (value_default_clause p) := by
  unfold value_default_clause; infer_instance

/-- Set-level form of `value_default_clause`. -/
def set_value_default_clause (ps : ParameterSet) : Prop :=
  ∀ p ∈ ps, value_default_clause p

instance (ps : ParameterSet) : Decidable (set_value_default_clause ps) := by
  unfold set_value_default_clause
  exact List.decidableBAll _ ps

/-- Concrete joint coordinate system produced by `compute_joint_cs` for two
perpendicular unit-frame members; used by the concrete instantiation of
the `compute_joint_cs` contract. -/
noncomputable def jcs_example : JointCoordinateSystem ℝ :=
  ⟨⟨0, 0, 0⟩, ⟨1, 0, 0⟩, ⟨0, 1, 0⟩, ⟨0, 0, 1⟩, 90⟩

-- ---------------------------------------------------------------------------
-- Concrete fixtures for instantiating theorems with hypotheses
-- ---------------------------------------------------------------------------

/-- Two-parameter set used to instantiate the shape-preservation and
update-defaults contracts. -/
def ps_pair : ParameterSet :=
  [{ name := "a", param_type := "length", default_value := .pnum 1,
     value := .pnum 5, is_overridden := true,
     min_value := .pnum 0, max_value := .pnum 10 },
   { name := "b", param_type := "length", default_value := .pnum 2,
     value := .pnum 2 }]

/-- Parameter whose overridden value 5 satisfies its bounds 0..10 while its
default 50 does not; reachable through `update_defaults`, which performs no
clamping. -/
def ps_bad_default : ParameterSet :=
  [{ name := "a", param_type := "length", default_value := .pnum 50,
     value := .pnum 5, is_overridden := true,
     min_value := .pnum 0, max_value := .pnum 10 }]

/-- Hand-built dovetail parameter set with in-bounds values, used to
instantiate the dovetail validation contract. -/
def ps_dovetail : ParameterSet :=
  [{ name := "tail_height", param_type := "length",
     default_value := .pnum 50, value := .pnum 50 },
   { name := "tail_width_narrow", param_type := "length",
     default_value := .pnum 50, value := .pnum 50 },
   { name := "slot_depth", param_type := "length",
     default_value := .pnum 40, value := .pnum 40 }]

/-- Rational joint coordinate system with a 30-degree intersection angle,
outside the valid range of all three built-in joint definitions. -/
def jcs_q30 : JointCoordinateSystem ℚ :=
  ⟨⟨0, 0, 0⟩, ⟨1, 0, 0⟩, ⟨0, 1, 0⟩, ⟨0, 0, 1⟩, 30⟩

-- ---------------------------------------------------------------------------
-- Helper lemmas
-- ---------------------------------------------------------------------------

@[simp] theorem v3_add_def (a b : V3 ℝ) :
    a + b = ⟨a.x + b.x, a.y + b.y, a.z + b.z⟩ := rfl

@[simp] theorem v3_sub_def (a b : V3 ℝ) :
    a - b = ⟨a.x - b.x, a.y - b.y, a.z - b.z⟩ := rfl

@[simp] theorem v3_smul_def (k : ℝ) (v : V3 ℝ) :
    k • v = ⟨k * v.x, k * v.y, k * v.z⟩ := rfl

theorem vnorm_eq (v : V3 ℝ) (r : ℝ) (hr : 0 ≤ r) (h : dotv v v = r ^ 2) :
    vnorm v = r := by
  rw [vnorm, h, Real.sqrt_sq hr]

theorem member_local_cs_eval (s e : V3 ℝ) (xA yA zA : V3 ℝ) (len : ℝ)
    (hlen : vnorm (e - s) = len) (h2 : ¬ len < 1e-6)
    (hx : vnormalize (e - s) = xA)
    (hup : ¬ |dotv xA ⟨0, 0, 1⟩| > 0.999)
    (hy : vnormalize (crossv xA ⟨0, 0, 1⟩) = yA)
    (hz : vnormalize (crossv yA xA) = zA) :
    member_local_cs s e = (s, xA, yA, zA) := by
  rw [member_local_cs]
  simp only [hlen, if_neg h2, hx, if_neg hup, hy, hz]

theorem frame_primary_x : member_local_cs ⟨0, 0, 0⟩ ⟨1000, 0, 0⟩ =
    (⟨0, 0, 0⟩, ⟨1, 0, 0⟩, ⟨0, -1, 0⟩, ⟨0, 0, 1⟩) := by
  have hsub : (⟨1000, 0, 0⟩ : V3 ℝ) - ⟨0, 0, 0⟩ = ⟨1000, 0, 0⟩ := by
    rw [v3_sub_def]; norm_num
  have hn' : vnorm (⟨1000, 0, 0⟩ : V3 ℝ) = 1000 :=
    vnorm_eq _ _ (by norm_num) (by rw [dotv]; norm_num)
  have hn : vnorm ((⟨1000, 0, 0⟩ : V3 ℝ) - ⟨0, 0, 0⟩) = 1000 := by
    rw [hsub]; exact hn'
  have hx : vnormalize ((⟨1000, 0, 0⟩ : V3 ℝ) - ⟨0, 0, 0⟩) = ⟨1, 0, 0⟩ := by
    rw [hsub, vnormalize, hn']
    norm_num
  have hy : vnormalize (crossv (⟨1, 0, 0⟩ : V3 ℝ) ⟨0, 0, 1⟩) = ⟨0, -1, 0⟩ := by
    have hc : crossv (⟨1, 0, 0⟩ : V3 ℝ) ⟨0, 0, 1⟩ = ⟨0, -1, 0⟩ := by
      rw [crossv]; norm_num
    rw [hc, vnormalize, vnorm_eq ⟨0, -1, 0⟩ 1 (by norm_num) (by rw [dotv]; norm_num)]
    norm_num
  have hz : vnormalize (crossv (⟨0, -1, 0⟩ : V3 ℝ) ⟨1, 0, 0⟩) = ⟨0, 0, 1⟩ := by
    have hc : crossv (⟨0, -1, 0⟩ : V3 ℝ) ⟨1, 0, 0⟩ = ⟨0, 0, 1⟩ := by
      rw [crossv]; norm_num
    rw [hc, vnormalize, vnorm_eq ⟨0, 0, 1⟩ 1 (by norm_num) (by rw [dotv]; norm_num)]
    norm_num
  exact member_local_cs_eval _ _ _ _ _ _ hn (by norm_num) hx
    (by rw [dotv]; norm_num) hy hz

theorem frame_sec_oblique : member_local_cs ⟨0, 0, 0⟩ ⟨0, 300, 400⟩ =
    (⟨0, 0, 0⟩, ⟨0, 3/5, 4/5⟩, ⟨1, 0, 0⟩, ⟨0, -4/5, 3/5⟩) := by
  have hsub : (⟨0, 300, 400⟩ : V3 ℝ) - ⟨0, 0, 0⟩ = ⟨0, 300, 400⟩ := by
    rw [v3_sub_def]; norm_num
  have hn' : vnorm (⟨0, 300, 400⟩ : V3 ℝ) = 500 :=
    vnorm_eq _ _ (by norm_num) (by rw [dotv]; norm_num)
  have hn : vnorm ((⟨0, 300, 400⟩ : V3 ℝ) - ⟨0, 0, 0⟩) = 500 := by
    rw [hsub]; exact hn'
  have hx : vnormalize ((⟨0, 300, 400⟩ : V3 ℝ) - ⟨0, 0, 0⟩) = ⟨0, 3/5, 4/5⟩ := by
    rw [hsub, vnormalize, hn']; norm_num
  have hy : vnormalize (crossv (⟨0, 3/5, 4/5⟩ : V3 ℝ) ⟨0, 0, 1⟩) = ⟨1, 0, 0⟩ := by
    have hc : crossv (⟨0, 3/5, 4/5⟩ : V3 ℝ) ⟨0, 0, 1⟩ = ⟨3/5, 0, 0⟩ := by
      rw [crossv]; norm_num
    rw [hc, vnormalize,
      vnorm_eq (⟨3/5, 0, 0⟩ : V3 ℝ) (3/5) (by norm_num) (by rw [dotv]; norm_num)]
    norm_num
  have hz : vnormalize (crossv (⟨1, 0, 0⟩ : V3 ℝ) ⟨0, 3/5, 4/5⟩) =
      ⟨0, -4/5, 3/5⟩ := by
    have hc : crossv (⟨1, 0, 0⟩ : V3 ℝ) ⟨0, 3/5, 4/5⟩ = ⟨0, -4/5, 3/5⟩ := by
      rw [crossv]; norm_num
    rw [hc, vnormalize,
      vnorm_eq (⟨0, -4/5, 3/5⟩ : V3 ℝ) 1 (by norm_num) (by rw [dotv]; norm_num)]
    norm_num
  exact member_local_cs_eval _ _ _ _ _ _ hn (by norm_num) hx
    (by rw [dotv]; norm_num [abs_le]) hy hz

theorem frame_sec_y : member_local_cs ⟨0, 0, 0⟩ ⟨0, 1000, 0⟩ =
    (⟨0, 0, 0⟩, ⟨0, 1, 0⟩, ⟨1, 0, 0⟩, ⟨0, 0, 1⟩) := by
  have hsub : (⟨0, 1000, 0⟩ : V3 ℝ) - ⟨0, 0, 0⟩ = ⟨0, 1000, 0⟩ := by
    rw [v3_sub_def]; norm_num
  have hn' : vnorm (⟨0, 1000, 0⟩ : V3 ℝ) = 1000 :=
    vnorm_eq _ _ (by norm_num) (by rw [dotv]; norm_num)
  have hn : vnorm ((⟨0, 1000, 0⟩ : V3 ℝ) - ⟨0, 0, 0⟩) = 1000 := by
    rw [hsub]; exact hn'
  have hx : vnormalize ((⟨0, 1000, 0⟩ : V3 ℝ) - ⟨0, 0, 0⟩) = ⟨0, 1, 0⟩ := by
    rw [hsub, vnormalize, hn']; norm_num
  have hy : vnormalize (crossv (⟨0, 1, 0⟩ : V3 ℝ) ⟨0, 0, 1⟩) = ⟨1, 0, 0⟩ := by
    have hc : crossv (⟨0, 1, 0⟩ : V3 ℝ) ⟨0, 0, 1⟩ = ⟨1, 0, 0⟩ := by
      rw [crossv]; norm_num
    rw [hc, vnormalize,
      vnorm_eq (⟨1, 0, 0⟩ : V3 ℝ) 1 (by norm_num) (by rw [dotv]; norm_num)]
    norm_num
  have hz : vnormalize (crossv (⟨1, 0, 0⟩ : V3 ℝ) ⟨0, 1, 0⟩) = ⟨0, 0, 1⟩ := by
    have hc : crossv (⟨1, 0, 0⟩ : V3 ℝ) ⟨0, 1, 0⟩ = ⟨0, 0, 1⟩ := by
      rw [crossv]; norm_num
    rw [hc, vnormalize,
      vnorm_eq (⟨0, 0, 1⟩ : V3 ℝ) 1 (by norm_num) (by rw [dotv]; norm_num)]
    norm_num
  exact member_local_cs_eval _ _ _ _ _ _ hn (by norm_num) hx
    (by rw [dotv]; norm_num) hy hz

theorem clamp01_mem {α : Type} [LinearOrder α] [Zero α] [One α]
    (h01 : (0 : α) ≤ 1) (v : α) : 0 ≤ clamp01 v ∧ clamp01 v ≤ 1 := by
  constructor
  · exact le_max_left _ _
  · exact max_le h01 (min_le_left _ _)

theorem unsigned_angle_deg_le_90 (a b : V3 ℝ) : unsigned_angle_deg a b ≤ 90 := by
  have h1 : Real.arccos |max (-1) (min 1 (dotv a b))| ≤ Real.pi / 2 :=
    Real.arccos_le_pi_div_two.mpr (abs_nonneg _)
  have h2 : Real.arccos |max (-1) (min 1 (dotv a b))| * 180 / Real.pi ≤
      Real.pi / 2 * 180 / Real.pi := by
    apply (div_le_div_iff_of_pos_right Real.pi_pos).mpr
    exact mul_le_mul_of_nonneg_right h1 (by norm_num)
  have h3 : Real.pi / 2 * 180 / Real.pi = 90 := by
    field_simp
    ring
  rw [unsigned_angle_deg]
  calc Real.arccos |max (-1) (min 1 (dotv a b))| * 180 / Real.pi
      ≤ Real.pi / 2 * 180 / Real.pi := h2
    _ = 90 := h3

theorem compute_joint_cs_eval (p_start p_end s_start s_end ipt pA sA nA : V3 ℝ)
    (ang : ℝ)
    (h1 : ¬(vnorm (p_end - p_start) < 1e-6 ∨ vnorm (s_end - s_start) < 1e-6))
    (hpA : vnormalize (p_end - p_start) = pA)
    (hsA : vnormalize (s_end - s_start) = sA)
    (hang : unsigned_angle_deg pA sA = ang) (h2 : ¬ ang < 5)
    (h3 : ¬ vnorm (crossv pA sA) < 1e-6)
    (hnA : vnormalize (crossv pA sA) = nA) :
    compute_joint_cs p_start p_end s_start s_end ipt =
      some ⟨ipt, pA, sA, nA, ang⟩ := by
  simp only [compute_joint_cs]
  rw [if_neg h1, hpA, hsA, hang, if_neg h2, if_neg h3, hnA]

theorem uad_perpendicular : unsigned_angle_deg ⟨1, 0, 0⟩ ⟨0, 1, 0⟩ = 90 := by
  rw [unsigned_angle_deg]
  have hd : dotv (⟨1, 0, 0⟩ : V3 ℝ) ⟨0, 1, 0⟩ = 0 := by rw [dotv]; norm_num
  rw [hd]
  norm_num [Real.arccos_zero]
  field_simp
  ring

theorem uad_parallel : unsigned_angle_deg ⟨1, 0, 0⟩ ⟨1, 0, 0⟩ = 0 := by
  rw [unsigned_angle_deg]
  have hd : dotv (⟨1, 0, 0⟩ : V3 ℝ) ⟨1, 0, 0⟩ = 1 := by rw [dotv]; norm_num
  rw [hd]
  norm_num [Real.arccos_one]

theorem compute_joint_cs_example :
    compute_joint_cs ⟨0, 0, 0⟩ ⟨1000, 0, 0⟩ ⟨0, 0, 0⟩ ⟨0, 1000, 0⟩ ⟨0, 0, 0⟩ =
      some jcs_example := by
  have hsubP : (⟨1000, 0, 0⟩ : V3 ℝ) - ⟨0, 0, 0⟩ = ⟨1000, 0, 0⟩ := by
    rw [v3_sub_def]; norm_num
  have hsubS : (⟨0, 1000, 0⟩ : V3 ℝ) - ⟨0, 0, 0⟩ = ⟨0, 1000, 0⟩ := by
    rw [v3_sub_def]; norm_num
  have hnP : vnorm (⟨1000, 0, 0⟩ : V3 ℝ) = 1000 :=
    vnorm_eq _ _ (by norm_num) (by rw [dotv]; norm_num)
  have hnS : vnorm (⟨0, 1000, 0⟩ : V3 ℝ) = 1000 :=
    vnorm_eq _ _ (by norm_num) (by rw [dotv]; norm_num)
  have hpA : vnormalize ((⟨1000, 0, 0⟩ : V3 ℝ) - ⟨0, 0, 0⟩) = ⟨1, 0, 0⟩ := by
    rw [hsubP, vnormalize, hnP]; norm_num
  have hsA : vnormalize ((⟨0, 1000, 0⟩ : V3 ℝ) - ⟨0, 0, 0⟩) = ⟨0, 1, 0⟩ := by
    rw [hsubS, vnormalize, hnS]; norm_num
  have hcross : crossv (⟨1, 0, 0⟩ : V3 ℝ) ⟨0, 1, 0⟩ = ⟨0, 0, 1⟩ := by
    rw [crossv]; norm_num
  have hcn : vnorm (crossv (⟨1, 0, 0⟩ : V3 ℝ) ⟨0, 1, 0⟩) = 1 := by
    rw [hcross]; exact vnorm_eq _ _ (by norm_num) (by rw [dotv]; norm_num)
  have hnA : vnormalize (crossv (⟨1, 0, 0⟩ : V3 ℝ) ⟨0, 1, 0⟩) = ⟨0, 0, 1⟩ := by
    rw [hcross, vnormalize,
      vnorm_eq (⟨0, 0, 1⟩ : V3 ℝ) 1 (by norm_num) (by rw [dotv]; norm_num)]
    norm_num
  exact compute_joint_cs_eval _ _ _ _ _ _ _ _ _
    (by rw [hsubP, hsubS, hnP, hnS]; norm_num)
    hpA hsA uad_perpendicular (by norm_num) (by rw [hcn]; norm_num) hnA

-- ---------------------------------------------------------------------------
-- Claim theorems
-- ---------------------------------------------------------------------------

/-- Claim C1, counterexample: the claim states that `get_parameters` of the
through mortise-and-tenon sets the default `tenon_length` to the projected
through-span (|dir.width-axis|*width + |dir.height-axis|*height of the
primary), not simply the raw primary width.  For a primary of width 100 and
height 200 along the world X axis and a secondary approaching obliquely
along (0,300,400), the projected through-span is 220 while the code sets
the default `tenon_length` to the raw primary width 100. -/
theorem tmt_tenon_length_differs_from_claimed_span :
    psGetNum (tmt_get_parameters 100 90 120) "tenon_length" = some 100 ∧
    claimed_through_span ⟨0, 0, 0⟩ ⟨1000, 0, 0⟩ ⟨0, 0, 0⟩ ⟨0, 300, 400⟩
      100 200 = 220 ∧
    (100 : ℝ) ≠ 220 := by
  refine ⟨by decide, ?_, by norm_num⟩
  have hdir : sec_in_plane_dir ⟨0, 0, 0⟩ ⟨1000, 0, 0⟩ ⟨0, 0, 0⟩ ⟨0, 300, 400⟩ =
      ⟨0, 3/5, 4/5⟩ := by
    simp only [sec_in_plane_dir, frame_primary_x, frame_sec_oblique]
    have hd : dotv (⟨0, 3/5, 4/5⟩ : V3 ℝ) ⟨1, 0, 0⟩ = 0 := by rw [dotv]; norm_num
    have hraw : (⟨0, 3/5, 4/5⟩ : V3 ℝ) -
        dotv (⟨0, 3/5, 4/5⟩ : V3 ℝ) ⟨1, 0, 0⟩ • ⟨1, 0, 0⟩ = ⟨0, 3/5, 4/5⟩ := by
      rw [hd, v3_smul_def, v3_sub_def]; norm_num
    rw [hraw,
      vnorm_eq (⟨0, 3/5, 4/5⟩ : V3 ℝ) 1 (by norm_num) (by rw [dotv]; norm_num)]
    norm_num
    rw [vnormalize,
      vnorm_eq (⟨0, 3/5, 4/5⟩ : V3 ℝ) 1 (by norm_num) (by rw [dotv]; norm_num)]
    norm_num
  simp only [claimed_through_span, hdir, frame_primary_x]
  rw [dotv, dotv]
  rw [show |(0:ℝ) * 0 + 3 / 5 * -1 + 4 / 5 * 0| = 3/5 by
      rw [abs_eq (by norm_num)]; norm_num,
    show |(0:ℝ) * 0 + 3 / 5 * 0 + 4 / 5 * 1| = 4/5 by
      rw [abs_eq (by norm_num)]; norm_num]
  norm_num

/-- Claim C1, amended: `get_parameters` of the through mortise-and-tenon
sets the default `tenon_width` to a third of the secondary width and the
default `tenon_height` to 75% of the secondary height as claimed, but the
default `tenon_length` is simply the raw primary width, with no projection
of the approach direction. -/
theorem tmt_default_tenon_dimensions (pri_w sec_w sec_h : ℚ) :
    psGetNum (tmt_get_parameters pri_w sec_w sec_h) "tenon_length" =
      some pri_w ∧
    psGetNum (tmt_get_parameters pri_w sec_w sec_h) "tenon_width" =
      some (sec_w / 3) ∧
    psGetNum (tmt_get_parameters pri_w sec_w sec_h) "tenon_height" =
      some (sec_h * 0.75) := by
  refine ⟨?_, ?_, ?_⟩ <;>
    simp [tmt_get_parameters, psGetNum, psGet, psFind, PValue.asNum, List.find?]

/-- Claim C2: for every pair of segments, `closest_approach_segments`
returns fractional parameters in the unit interval and a non-negative
distance; for the perpendicular pair A=(0,0,0)-(1000,0,0),
B=(500,-300,0)-(500,300,0) it returns both closest points at (500,0,0),
distance 0 and parameters 1/2, and `classify_intersection` classifies
(1/2, 1/2) as MidpointToMidpoint. -/
theorem closest_approach_contract :
    (∀ p1 d1 p2 d2 : V3 ℝ,
      0 ≤ (closest_approach_segments p1 d1 p2 d2).t1 ∧
      (closest_approach_segments p1 d1 p2 d2).t1 ≤ 1 ∧
      0 ≤ (closest_approach_segments p1 d1 p2 d2).t2 ∧
      (closest_approach_segments p1 d1 p2 d2).t2 ≤ 1 ∧
      0 ≤ (closest_approach_segments p1 d1 p2 d2).dist) ∧
    closest_approach_segments ⟨0, 0, 0⟩ ⟨1000, 0, 0⟩ ⟨500, -300, 0⟩
      ⟨500, 300, 0⟩ = ⟨⟨500, 0, 0⟩, ⟨500, 0, 0⟩, 0, 1/2, 1/2⟩ ∧
    classify_intersection (1/2) (1/2) = "MidpointToMidpoint" := by
  refine ⟨?_, ?_, ?_⟩
  · intro p1 d1 p2 d2
    simp only [closest_approach_segments]
    refine ⟨(clamp01_mem (by norm_num) _).1, (clamp01_mem (by norm_num) _).2,
      (clamp01_mem (by norm_num) _).1, (clamp01_mem (by norm_num) _).2, ?_⟩
    exact Real.sqrt_nonneg _
  · simp only [closest_approach_segments, v3_sub_def, v3_add_def, v3_smul_def]
    norm_num [dotv, clamp01]
    exact vnorm_eq _ _ (by norm_num) (by rw [dotv]; norm_num)
  · norm_num [classify_intersection]

/-- Claim C6: `compute_joint_cs` returns no joint coordinate system when
either datum direction is near zero (length below 1e-6) or the unsigned
angle between the datum directions is below 5 degrees; whenever it returns
one, the reported angle is the unsigned angle (degrees of the arc cosine
of the absolute clamped cosine of the two datum directions) and lies in
the interval from 5 to 90 degrees. -/
theorem compute_joint_cs_contract :
    (∀ p_start p_end s_start s_end ipt : V3 ℝ,
      (vnorm (p_end - p_start) < 1e-6 ∨ vnorm (s_end - s_start) < 1e-6) →
      compute_joint_cs p_start p_end s_start s_end ipt = none) ∧
    (∀ p_start p_end s_start s_end ipt : V3 ℝ,
      unsigned_angle_deg (vnormalize (p_end - p_start))
        (vnormalize (s_end - s_start)) < 5 →
      compute_joint_cs p_start p_end s_start s_end ipt = none) ∧
    (∀ (p_start p_end s_start s_end ipt : V3 ℝ)
        (jcs : JointCoordinateSystem ℝ),
      compute_joint_cs p_start p_end s_start s_end ipt = some jcs →
      jcs.angle = unsigned_angle_deg (vnormalize (p_end - p_start))
        (vnormalize (s_end - s_start)) ∧ 5 ≤ jcs.angle ∧ jcs.angle ≤ 90) := by
  refine ⟨?_, ?_, ?_⟩
  · intro p_start p_end s_start s_end ipt h
    simp only [compute_joint_cs]
    rw [if_pos h]
  · intro p_start p_end s_start s_end ipt h
    simp only [compute_joint_cs]
    by_cases h1 : vnorm (p_end - p_start) < 1e-6 ∨ vnorm (s_end - s_start) < 1e-6
    · rw [if_pos h1]
    · rw [if_neg h1, if_pos h]
  · intro p_start p_end s_start s_end ipt jcs h
    simp only [compute_joint_cs] at h
    by_cases h1 : vnorm (p_end - p_start) < 1e-6 ∨ vnorm (s_end - s_start) < 1e-6
    · rw [if_pos h1] at h; exact absurd h (by simp)
    · rw [if_neg h1] at h
      by_cases h2 : unsigned_angle_deg (vnormalize (p_end - p_start))
          (vnormalize (s_end - s_start)) < 5
      · rw [if_pos h2] at h; exact absurd h (by simp)
      · rw [if_neg h2] at h
        rw [Option.some_inj] at h
        subst h
        exact ⟨rfl, not_lt.mp h2, unsigned_angle_deg_le_90 _ _⟩

/-- Claim C6, concrete instantiation of `compute_joint_cs_contract`:
a zero-length primary datum is rejected, two parallel datums are rejected
(unsigned angle 0), and the perpendicular configuration yields a joint
coordinate system whose angle 90 lies in the interval from 5 to 90. -/
theorem compute_joint_cs_contract_instance :
    compute_joint_cs ⟨0, 0, 0⟩ ⟨0, 0, 0⟩ ⟨0, 0, 0⟩ ⟨0, 1000, 0⟩ ⟨0, 0, 0⟩ =
      none ∧
    compute_joint_cs ⟨0, 0, 0⟩ ⟨1000, 0, 0⟩ ⟨0, 0, 0⟩ ⟨2000, 0, 0⟩ ⟨0, 0, 0⟩ =
      none ∧
    (5 ≤ jcs_example.angle ∧ jcs_example.angle ≤ 90) := by
  have hz : vnorm ((⟨0, 0, 0⟩ : V3 ℝ) - ⟨0, 0, 0⟩) = 0 := by
    rw [show (⟨0, 0, 0⟩ : V3 ℝ) - ⟨0, 0, 0⟩ = ⟨0, 0, 0⟩ by rw [v3_sub_def]; norm_num]
    exact vnorm_eq _ _ le_rfl (by rw [dotv]; norm_num)
  have hP : vnormalize ((⟨1000, 0, 0⟩ : V3 ℝ) - ⟨0, 0, 0⟩) = ⟨1, 0, 0⟩ := by
    rw [show (⟨1000, 0, 0⟩ : V3 ℝ) - ⟨0, 0, 0⟩ = ⟨1000, 0, 0⟩ by
        rw [v3_sub_def]; norm_num,
      vnormalize, vnorm_eq (⟨1000, 0, 0⟩ : V3 ℝ) 1000 (by norm_num)
        (by rw [dotv]; norm_num)]
    norm_num
  have hS : vnormalize ((⟨2000, 0, 0⟩ : V3 ℝ) - ⟨0, 0, 0⟩) = ⟨1, 0, 0⟩ := by
    rw [show (⟨2000, 0, 0⟩ : V3 ℝ) - ⟨0, 0, 0⟩ = ⟨2000, 0, 0⟩ by
        rw [v3_sub_def]; norm_num,
      vnormalize, vnorm_eq (⟨2000, 0, 0⟩ : V3 ℝ) 2000 (by norm_num)
        (by rw [dotv]; norm_num)]
    norm_num
  refine ⟨?_, ?_, ?_⟩
  · exact compute_joint_cs_contract.1 _ _ _ _ _ (Or.inl (by rw [hz]; norm_num))
  · refine compute_joint_cs_contract.2.1 _ _ _ _ _ ?_
    rw [hP, hS, uad_parallel]
    norm_num
  · exact (compute_joint_cs_contract.2.2 _ _ _ _ _ _
      compute_joint_cs_example).2

/-- Claim C7, counterexample: the claim states that the half-lap notch
width defaults to the opposing member's footprint projected onto this
member's along-axis plus the fixed clearance, floored at 10 length units.
For a primary member 100x100 along world X crossed perpendicularly by a
secondary of width 2 and height 100 along world Y, the claimed formula
gives max(2 + 1.6, 10) = 10, while the code sets the default
`lap_width_primary` to the raw secondary width plus clearance, 3.6. -/
theorem half_lap_width_differs_from_claimed_footprint :
    psGetNum (half_lap_get_parameters 100 100 2 100) "lap_width_primary" =
      some (18/5) ∧
    claimed_lap_width ⟨0, 0, 0⟩ ⟨1000, 0, 0⟩ ⟨0, 0, 0⟩ ⟨0, 1000, 0⟩ 2 100 =
      10 ∧
    (18/5 : ℝ) ≠ 10 := by
  refine ⟨?_, ?_, by norm_num⟩
  · simp [half_lap_get_parameters, psGetNum, psGet, psFind, List.find?,
      PValue.asNum]
    norm_num
  simp only [claimed_lap_width, frame_primary_x, frame_sec_y]
  rw [dotv, dotv]
  norm_num

/-- Claim C7, amended: `get_parameters` of the half lap derives, for each
member, a default notch depth of half that member's own height bounded
between 25% and 75% of it (as claimed), and a default notch width equal
to the opposing member's raw width plus the fixed 1.6 clearance with a
lower bound of half the opposing width — with no footprint projection and
no floor of 10 length units. -/
theorem half_lap_default_parameters (pri_w pri_h sec_w sec_h : ℚ) :
    psFind (half_lap_get_parameters pri_w pri_h sec_w sec_h)
        "lap_depth_primary" = some
      { name := "lap_depth_primary", param_type := "length",
        default_value := .pnum (pri_h / 2), value := .pnum (pri_h / 2),
        min_value := .pnum (pri_h * 0.25), max_value := .pnum (pri_h * 0.75),
        group := "Lap", description := "Depth of notch in primary member" } ∧
    psFind (half_lap_get_parameters pri_w pri_h sec_w sec_h)
        "lap_depth_secondary" = some
      { name := "lap_depth_secondary", param_type := "length",
        default_value := .pnum (sec_h / 2), value := .pnum (sec_h / 2),
        min_value := .pnum (sec_h * 0.25), max_value := .pnum (sec_h * 0.75),
        group := "Lap", description := "Depth of notch in secondary member" } ∧
    psFind (half_lap_get_parameters pri_w pri_h sec_w sec_h)
        "lap_width_primary" = some
      { name := "lap_width_primary", param_type := "length",
        default_value := .pnum (sec_w + 1.6), value := .pnum (sec_w + 1.6),
        min_value := .pnum (sec_w * 0.5),
        group := "Lap",
        description := "Width of notch in primary (accepts secondary)" } ∧
    psFind (half_lap_get_parameters pri_w pri_h sec_w sec_h)
        "lap_width_secondary" = some
      { name := "lap_width_secondary", param_type := "length",
        default_value := .pnum (pri_w + 1.6), value := .pnum (pri_w + 1.6),
        min_value := .pnum (pri_w * 0.5),
        group := "Lap",
        description := "Width of notch in secondary (accepts primary)" } := by
  refine ⟨?_, ?_, ?_, ?_⟩ <;>
    simp [half_lap_get_parameters, psFind, List.find?]

/-- Claim C8: for the through mortise-and-tenon, a secondary of height 140
yields a default peg count of 1 and one of height 160 yields 2 (threshold
at height 150).  For the height-160 defaults (tenon height 120, edge
distance 63.5, spacing = tenon height minus twice the edge distance = -7),
`build_pegs` returns exactly two pegs at offsets spacing/2 and -spacing/2
along the primary height axis: they are symmetric about the tenon's
vertical center (the offsets sum to zero), the offset +spacing/2 sits
exactly the fixed edge distance below the tenon's top boundary
(tenon-height/2 - spacing/2 = edge distance), and both pegs lie inside the
tenon band with a non-negative distance of 120/2 - 7/2 to the nearest
boundary. -/
theorem tmt_peg_count_and_placement (pri_w sec_w pw : ℚ) (o py pz : V3 ℚ) :
    psGetNum (tmt_get_parameters pri_w sec_w 140) "peg_count" = some 1 ∧
    psGetNum (tmt_get_parameters pri_w sec_w 160) "peg_count" = some 2 ∧
    psGetNum (tmt_get_parameters pri_w sec_w 160) "tenon_height" = some 120 ∧
    psGetNum (tmt_get_parameters pri_w sec_w 160) "peg_edge_distance" =
      some (127/2) ∧
    psGetNum (tmt_get_parameters pri_w sec_w 160) "peg_spacing" = some (-7) ∧
    tmt_build_pegs (tmt_get_parameters pri_w sec_w 160) o py pz pw =
      some [{ center := o + (7/2 : ℚ) • pz, diameter := 25.4,
              length := pw + 20, axis := py, offset := 3.2 },
            { center := o + (-7/2 : ℚ) • pz, diameter := 25.4,
              length := pw + 20, axis := py, offset := 3.2 }] ∧
    (7/2 : ℚ) + (-7/2) = 0 ∧
    (120/2 : ℚ) - (-7)/2 = 127/2 ∧
    ((0 : ℚ) ≤ 120/2 - |(7/2 : ℚ)| ∧ (0 : ℚ) ≤ 120/2 - |(-7/2 : ℚ)|) := by
  refine ⟨?_, ?_, ?_, ?_, ?_, ?_, by norm_num, by norm_num, ?_⟩
  · simp +decide [tmt_get_parameters, psGetNum, psGet, psFind, PValue.asNum,
      List.find?]
  · simp +decide [tmt_get_parameters, psGetNum, psGet, psFind, PValue.asNum,
      List.find?]
  · simp +decide [tmt_get_parameters, psGetNum, psGet, psFind, PValue.asNum,
      List.find?]
    norm_num
  · simp +decide [tmt_get_parameters, psGetNum, psGet, psFind, PValue.asNum,
      List.find?]
    norm_num
  · simp +decide [tmt_get_parameters, psGetNum, psGet, psFind, PValue.asNum,
      List.find?]
    norm_num
  · simp +decide [tmt_build_pegs, tmt_get_parameters, psGetNum, psGet, psFind,
      PValue.asNum, List.find?, ratTrunc]
    norm_num [List.range_succ]
  · constructor
    · rw [abs_of_nonneg (by norm_num : (0 : ℚ) ≤ 7/2)]; norm_num
    · rw [abs_of_nonpos (by norm_num : (-7/2 : ℚ) ≤ 0)]; norm_num

/-- Claim C3: `update_defaults` sets the default value of every named
parameter present in the set to the supplied value unconditionally and
sets the effective value to it exactly when the parameter is not
overridden (leaving every other field unchanged); in particular every
overridden parameter keeps its previous effective value. -/
theorem update_defaults_semantics :
    (∀ (ps : ParameterSet) (nd : List (String × PValue)) (i : ℕ)
        (p : JointParameter), ps[i]? = some p →
      ∀ v, nd.lookup p.name = some v →
        (update_defaults ps nd)[i]? = some
          { p with default_value := v,
                   value := if p.is_overridden then p.value else v }) ∧
    (∀ (ps : ParameterSet) (nd : List (String × PValue)) (i : ℕ)
        (p : JointParameter), ps[i]? = some p → p.is_overridden = true →
      ((update_defaults ps nd)[i]?).map (·.value) = some p.value) := by
  constructor
  · intro ps nd i p hp v hv
    simp only [update_defaults, List.getElem?_map, hp, Option.map_some']
    rw [hv]
  · intro ps nd i p hp hov
    simp only [update_defaults, List.getElem?_map, hp, Option.map_some']
    rcases hl : List.lookup p.name nd with _ | v
    · rfl
    · simp [hov]

/-- Claim C3, concrete instantiation of `update_defaults_semantics` on
`ps_pair`: the overridden first parameter adopts the supplied default 7
but keeps its effective value 5. -/
theorem update_defaults_semantics_instance :
    (update_defaults ps_pair [("a", .pnum 7)])[0]? = some
      { name := "a", param_type := "length", default_value := .pnum 7,
        value := .pnum 5, is_overridden := true,
        min_value := .pnum 0, max_value := .pnum 10 } ∧
    ((update_defaults ps_pair [("a", .pnum 7)])[0]?).map (·.value) =
      some (.pnum 5) := by
  constructor
  · exact update_defaults_semantics.1 ps_pair [("a", .pnum 7)] 0 _
      (by rfl) (.pnum 7) (by rfl)
  · exact update_defaults_semantics.2 ps_pair [("a", .pnum 7)] 0 _
      (by rfl) (by rfl)

/-- Claim C10: `set_override`, `clear_override` and `update_defaults`
never add or remove a parameter and never change the ordering — whenever
they succeed, the sequence of names and the length of the set are
unchanged. -/
theorem parameter_ops_preserve_shape :
    (∀ (ps : ParameterSet) (n : String) (v : PValue) (ps' : ParameterSet),
      set_override ps n v = some ps' →
        psNames ps' = psNames ps ∧ ps'.length = ps.length) ∧
    (∀ (ps : ParameterSet) (n : String) (ps' : ParameterSet),
      clear_override ps n = some ps' →
        psNames ps' = psNames ps ∧ ps'.length = ps.length) ∧
    (∀ (ps : ParameterSet) (nd : List (String × PValue)),
      psNames (update_defaults ps nd) = psNames ps ∧
        (update_defaults ps nd).length = ps.length) := by
  refine ⟨?_, ?_, ?_⟩
  · intro ps n v ps' h
    simp only [set_override, Option.bind_eq_bind, Option.bind_eq_some,
      Option.pure_def, Option.some_inj] at h
    obtain ⟨p, _, v', _, rfl⟩ := h
    constructor
    · rw [psNames, psNames, List.map_map]
      refine List.map_congr_left ?_
      intro q _
      by_cases hq : q.name = n <;> simp [hq]
    · exact List.length_map _ _
  · intro ps n ps' h
    simp only [clear_override, Option.bind_eq_bind, Option.bind_eq_some,
      Option.pure_def, Option.some_inj] at h
    obtain ⟨p, _, rfl⟩ := h
    constructor
    · rw [psNames, psNames, List.map_map]
      refine List.map_congr_left ?_
      intro q _
      by_cases hq : q.name = n <;> simp [hq]
    · exact List.length_map _ _
  · intro ps nd
    constructor
    · rw [update_defaults, psNames, psNames, List.map_map]
      refine List.map_congr_left ?_
      intro q _
      rcases hl : List.lookup q.name nd with _ | v <;> simp [hl]
    · rw [update_defaults]
      exact List.length_map _ _

/-- Claim C10, concrete instantiation of `parameter_ops_preserve_shape` on
`ps_pair`: a successful override of parameter a keeps the name sequence
and the length. -/
theorem parameter_ops_preserve_shape_instance :
    ∀ ps', set_override ps_pair "a" (.pnum 99) = some ps' →
      psNames ps' = ["a", "b"] ∧ ps'.length = 2 := by
  intro ps' h
  have hshape := parameter_ops_preserve_shape.1 ps_pair "a" (.pnum 99) ps' h
  constructor
  · rw [hshape.1]; rfl
  · rw [hshape.2]; rfl

theorem decode_encode_pvalue (v : PValue) :
    decodePValue (encodePValue v) = some v := by
  cases v <;> rfl

theorem decode_encode_strlist (l : List String) :
    decodeStrList (.jarr (l.map Json.jstr)) = some l := by
  induction l with
  | nil => rfl
  | cons s t ih =>
    simp only [List.map_cons, decodeStrList, List.mapM_cons] at ih ⊢
    simp only [decodeStr, Option.bind_eq_bind, Option.some_bind] at ih ⊢
    rcases hm : List.mapM decodeStr (List.map Json.jstr t) with _ | r
    · rw [hm] at ih; exact absurd ih (by simp)
    · rw [hm] at ih
      simp only [Option.some_bind] at ih ⊢
      simp only [Option.some_inj] at ih ⊢
      rw [ih]; rfl

theorem decode_encode_param (p : JointParameter) :
    decodeParam (encodeParam p) = some p := by
  simp +decide [decodeParam, encodeParam, List.lookup, decode_encode_pvalue,
    decode_encode_strlist, decodeStr, decodeBool]

/-- Claim C4: serializing a `ParameterSet`, deserializing it, and
serializing again is the identity at the level of the serialized JSON
tree (`json.dumps` with fixed separators is a deterministic injective
function of that tree, so the two serialized strings are identical), and
the deserialized set reproduces every parameter with every field equal
and in the same order — stated as `from_json (to_json ps) = some ps`,
from which `to_json` of the round-tripped set is literally `to_json ps`. -/
theorem parameter_set_round_trip (ps : ParameterSet) :
    from_json (to_json ps) = some ps := by
  simp only [from_json, to_json]
  induction ps with
  | nil => rfl
  | cons p t ih =>
    simp only [List.map_cons, List.mapM_cons, decode_encode_param,
      Option.bind_eq_bind, Option.some_bind] at ih ⊢
    rcases hm : List.mapM decodeParam (List.map encodeParam t) with _ | r
    · rw [hm] at ih; exact absurd ih (by simp)
    · rw [hm] at ih
      simp only [Option.some_bind, Option.some_inj] at ih ⊢
      rw [ih]; rfl

/-- Claim C9: for each of the three built-in joint definitions, whenever
the intersection angle lies strictly outside the definition's valid range
and `validate` returns a result list, that list contains a finding with
level error and code ANGLE_OUT_OF_RANGE. -/
theorem validate_flags_angle_out_of_range :
    (∀ (ps : ParameterSet) (sec_w sec_h : ℚ) (jcs : JointCoordinateSystem ℚ)
        (rs : List ValidationResult),
      (jcs.angle < TMT_MIN_ANGLE ∨ jcs.angle > TMT_MAX_ANGLE) →
      tmt_validate ps sec_w sec_h jcs = some rs →
      ∃ r ∈ rs, r.level = "error" ∧ r.code = "ANGLE_OUT_OF_RANGE") ∧
    (∀ (ps : ParameterSet) (pri_h sec_h : ℚ) (jcs : JointCoordinateSystem ℚ)
        (rs : List ValidationResult),
      (jcs.angle < HALF_LAP_MIN_ANGLE ∨ jcs.angle > HALF_LAP_MAX_ANGLE) →
      half_lap_validate ps pri_h sec_h jcs = some rs →
      ∃ r ∈ rs, r.level = "error" ∧ r.code = "ANGLE_OUT_OF_RANGE") ∧
    (∀ (ps : ParameterSet) (pri_w sec_w sec_h : ℚ)
        (jcs : JointCoordinateSystem ℚ) (rs : List ValidationResult),
      (jcs.angle < DOVETAIL_MIN_ANGLE ∨ jcs.angle > DOVETAIL_MAX_ANGLE) →
      dovetail_validate ps pri_w sec_w sec_h jcs = some rs →
      ∃ r ∈ rs, r.level = "error" ∧ r.code = "ANGLE_OUT_OF_RANGE") := by
  refine ⟨?_, ?_, ?_⟩
  · intro ps sec_w sec_h jcs rs hang hsome
    simp only [tmt_validate, Option.bind_eq_bind, Option.bind_eq_some,
      Option.pure_def, Option.some_inj] at hsome
    obtain ⟨th, _, tw, _, pd, _, pe, _, rfl⟩ := hsome
    refine ⟨⟨"error", "Intersection angle is outside the valid range.",
      "ANGLE_OUT_OF_RANGE"⟩, ?_, rfl, rfl⟩
    rw [if_pos hang]
    simp [List.mem_append]
  · intro ps pri_h sec_h jcs rs hang hsome
    simp only [half_lap_validate, Option.bind_eq_bind, Option.bind_eq_some,
      Option.pure_def, Option.some_inj] at hsome
    obtain ⟨dp, _, ds, _, rfl⟩ := hsome
    refine ⟨⟨"error", "Intersection angle is outside the valid range.",
      "ANGLE_OUT_OF_RANGE"⟩, ?_, rfl, rfl⟩
    rw [if_pos hang]
    simp [List.mem_append]
  · intro ps pri_w sec_w sec_h jcs rs hang hsome
    simp only [dovetail_validate, Option.bind_eq_bind, Option.bind_eq_some,
      Option.pure_def, Option.some_inj] at hsome
    obtain ⟨th, _, nw, _, sd, _, rfl⟩ := hsome
    refine ⟨⟨"error", "Intersection angle is outside the valid range.",
      "ANGLE_OUT_OF_RANGE"⟩, ?_, rfl, rfl⟩
    rw [if_pos hang]
    simp [List.mem_append]

/-- Claim C9, concrete instantiation of `validate_flags_angle_out_of_range`
at a 30-degree intersection: each of the three validators reports exactly
the angle error on concrete parameter sets. -/
theorem validate_flags_angle_instance :
    (tmt_validate (tmt_get_parameters 100 90 120) 90 120 jcs_q30 =
        some [⟨"error", "Intersection angle is outside the valid range.",
          "ANGLE_OUT_OF_RANGE"⟩] ∧
      ∃ r ∈ [(⟨"error", "Intersection angle is outside the valid range.",
          "ANGLE_OUT_OF_RANGE"⟩ : ValidationResult)],
        r.level = "error" ∧ r.code = "ANGLE_OUT_OF_RANGE") ∧
    (half_lap_validate (half_lap_get_parameters 100 100 90 120)
        100 120 jcs_q30 =
        some [⟨"error", "Intersection angle is outside the valid range.",
          "ANGLE_OUT_OF_RANGE"⟩] ∧
      ∃ r ∈ [(⟨"error", "Intersection angle is outside the valid range.",
          "ANGLE_OUT_OF_RANGE"⟩ : ValidationResult)],
        r.level = "error" ∧ r.code = "ANGLE_OUT_OF_RANGE") ∧
    (dovetail_validate ps_dovetail 100 90 120 jcs_q30 =
        some [⟨"error", "Intersection angle is outside the valid range.",
          "ANGLE_OUT_OF_RANGE"⟩] ∧
      ∃ r ∈ [(⟨"error", "Intersection angle is outside the valid range.",
          "ANGLE_OUT_OF_RANGE"⟩ : ValidationResult)],
        r.level = "error" ∧ r.code = "ANGLE_OUT_OF_RANGE") := by
  have h1 : tmt_validate (tmt_get_parameters 100 90 120) 90 120 jcs_q30 =
      some [⟨"error", "Intersection angle is outside the valid range.",
        "ANGLE_OUT_OF_RANGE"⟩] := by
    simp +decide [tmt_validate, tmt_get_parameters, psGetNum, psGet, psFind,
      PValue.asNum, List.find?, jcs_q30, TMT_MIN_ANGLE, TMT_MAX_ANGLE]
    norm_num
  have h2 : half_lap_validate (half_lap_get_parameters 100 100 90 120)
      100 120 jcs_q30 =
      some [⟨"error", "Intersection angle is outside the valid range.",
        "ANGLE_OUT_OF_RANGE"⟩] := by
    simp +decide [half_lap_validate, half_lap_get_parameters, psGetNum, psGet,
      psFind, PValue.asNum, List.find?, jcs_q30, HALF_LAP_MIN_ANGLE,
      HALF_LAP_MAX_ANGLE]
    norm_num
  have h3 : dovetail_validate ps_dovetail 100 90 120 jcs_q30 =
      some [⟨"error", "Intersection angle is outside the valid range.",
        "ANGLE_OUT_OF_RANGE"⟩] := by
    simp +decide [dovetail_validate, ps_dovetail, psGetNum, psGet, psFind,
      PValue.asNum, List.find?, jcs_q30, DOVETAIL_MIN_ANGLE,
      DOVETAIL_MAX_ANGLE]
    norm_num
  refine ⟨⟨h1, ?_⟩, ⟨h2, ?_⟩, ⟨h3, ?_⟩⟩
  · exact validate_flags_angle_out_of_range.1 (tmt_get_parameters 100 90 120)
      90 120 jcs_q30 _ (by decide) h1
  · exact validate_flags_angle_out_of_range.2.1
      (half_lap_get_parameters 100 100 90 120) 100 120 jcs_q30 _ (by decide) h2
  · exact validate_flags_angle_out_of_range.2.2 ps_dovetail 100 90 120
      jcs_q30 _ (by decide) h3

theorem pvLe_self_of_lt_left (a b : PValue) (r : Bool)
    (h : pvLt a b = some r) : pvLe a a = some true := by
  cases a <;> cases b <;> simp_all [pvLt, pvLe, PValue.asNum]

theorem pvLe_self_of_lt_right (a b : PValue) (r : Bool)
    (h : pvLt a b = some r) : pvLe b b = some true := by
  cases a <;> cases b <;> simp_all [pvLt, pvLe, PValue.asNum]

theorem pvLt_false_le (a b : PValue) (h : pvLt a b = some false) :
    pvLe b a = some true := by
  cases a <;> cases b <;>
    simp_all [pvLt, pvLe, PValue.asNum, not_lt, le_of_not_lt]

theorem pvLt_true_le (a b : PValue) (h : pvLt a b = some true) :
    pvLe a b = some true := by
  cases a <;> cases b <;> simp_all [pvLt, pvLe, PValue.asNum, le_of_lt]

theorem pvLe_trans (a b c : PValue) (h1 : pvLe a b = some true)
    (h2 : pvLe b c = some true) : pvLe a c = some true := by
  cases a <;> cases b <;> cases c <;>
    simp_all [pvLe, PValue.asNum] <;>
    exact le_trans h1 h2

theorem clampToBounds_within (p : JointParameter) (v v' : PValue)
    (hc : clampToBounds p v = some v')
    (hmm : p.min_value ≠ .pnone → p.max_value ≠ .pnone →
      pvLe p.min_value p.max_value = some true) :
    (p.min_value ≠ .pnone → pvLe p.min_value v' = some true) ∧
    (p.max_value ≠ .pnone → pvLe v' p.max_value = some true) := by
  simp only [clampToBounds, Option.bind_eq_bind, Option.pure_def] at hc
  by_cases hmin : p.min_value = .pnone
  · rw [if_pos hmin] at hc
    simp only [Option.some_bind] at hc
    by_cases hmax : p.max_value = .pnone
    · rw [if_pos hmax] at hc
      refine ⟨fun h => absurd hmin h, fun h => absurd hmax h⟩
    · rw [if_neg hmax] at hc
      rcases hgt : pvLt p.max_value v with _ | gt
      · rw [hgt] at hc; exact absurd hc (by simp)
      · rw [hgt] at hc
        simp only [Option.some_bind, Option.some_inj] at hc
        subst hc
        refine ⟨fun h => absurd hmin h, fun _ => ?_⟩
        cases gt with
        | true => rw [if_pos rfl]; exact pvLe_self_of_lt_left _ _ _ hgt
        | false => rw [if_neg (by simp)]; exact pvLt_false_le _ _ hgt
  · rw [if_neg hmin] at hc
    rcases hlt : pvLt v p.min_value with _ | lt
    · rw [hlt] at hc; exact absurd hc (by simp)
    · rw [hlt] at hc
      simp only [Option.some_bind] at hc
      have hminv1 : pvLe p.min_value (if lt then p.min_value else v) =
          some true := by
        cases lt with
        | true => rw [if_pos rfl]; exact pvLe_self_of_lt_right _ _ _ hlt
        | false => rw [if_neg (by simp)]; exact pvLt_false_le _ _ hlt
      by_cases hmax : p.max_value = .pnone
      · rw [if_pos hmax] at hc
        simp only [Option.some_inj] at hc
        subst hc
        exact ⟨fun _ => hminv1, fun h => absurd hmax h⟩
      · rw [if_neg hmax] at hc
        rcases hgt : pvLt p.max_value (if lt then p.min_value else v) with _ | gt
        · rw [hgt] at hc; exact absurd hc (by simp)
        · rw [hgt] at hc
          simp only [Option.some_bind, Option.some_inj] at hc
          subst hc
          cases gt with
          | true =>
            rw [if_pos rfl]
            exact ⟨fun _ => hmm hmin hmax,
              fun _ => pvLe_self_of_lt_left _ _ _ hgt⟩
          | false =>
            rw [if_neg (by simp)]
            exact ⟨fun _ => hminv1, fun _ => pvLt_false_le _ _ hgt⟩

/-- Claim C5, counterexample: the claim states that `clear_override`
preserves the invariant (value within bounds when present, non-overridden
value equals default).  Starting from the invariant-satisfying parameter
of `ps_bad_default` — overridden value 5 within bounds 0..10, default 50
outside them, a state reachable because `update_defaults` performs no
clamping — `clear_override` restores the default 50 as the effective
value, which violates the bounds part of the invariant. -/
theorem clear_override_breaks_claimed_invariant :
    set_invariant ps_bad_default ∧
    clear_override ps_bad_default "a" = some
      [{ name := "a", param_type := "length", default_value := .pnum 50,
         value := .pnum 50, is_overridden := false,
         min_value := .pnum 0, max_value := .pnum 10 }] ∧
    ¬ set_invariant
      [{ name := "a", param_type := "length", default_value := .pnum 50,
         value := .pnum 50, is_overridden := false,
         min_value := .pnum 0, max_value := .pnum 10 }] := by
  decide

/-- Claim C5, amended: `set_override` preserves the invariant itself (on
sets with one parameter per name, the faithful image of Python's
dict-backed state) because it clamps, and the cross-bound fact it needs
follows from the old value lying within both bounds; `clear_override` and
`update_defaults` preserve the invariant only under the strengthened form
in which the default value also lies within the bounds (and, for
`update_defaults`, provided the supplied new defaults respect the bounds
of the parameters they target), because neither operation clamps; the
non-overridden-value-equals-default part of the invariant is preserved by
all three operations unconditionally. -/
theorem parameter_ops_invariant_preservation :
    (∀ (ps : ParameterSet) (n : String) (v : PValue) (ps' : ParameterSet),
      (psNames ps).Nodup → set_invariant ps →
      set_override ps n v = some ps' → set_invariant ps') ∧
    (∀ (ps : ParameterSet) (n : String) (ps' : ParameterSet),
      set_invariant_strong ps → clear_override ps n = some ps' →
      set_invariant_strong ps') ∧
    (∀ (ps : ParameterSet) (nd : List (String × PValue)),
      set_invariant_strong ps → defaults_respect_bounds ps nd →
      set_invariant_strong (update_defaults ps nd)) ∧
    (∀ (ps : ParameterSet) (n : String) (v : PValue) (ps' : ParameterSet),
      set_value_default_clause ps → set_override ps n v = some ps' →
      set_value_default_clause ps') ∧
    (∀ (ps : ParameterSet) (n : String) (ps' : ParameterSet),
      set_value_default_clause ps → clear_override ps n = some ps' →
      set_value_default_clause ps') ∧
    (∀ (ps : ParameterSet) (nd : List (String × PValue)),
      set_value_default_clause ps →
      set_value_default_clause (update_defaults ps nd)) := by
  refine ⟨?_, ?_, ?_, ?_, ?_, ?_⟩
  · intro ps n v ps' hnod hinv h
    simp only [set_override, Option.bind_eq_bind, Option.bind_eq_some,
      Option.pure_def, Option.some_inj] at h
    obtain ⟨p, hfind, v', hclamp, rfl⟩ := h
    intro q' hq'
    rw [List.mem_map] at hq'
    obtain ⟨q, hq, rfl⟩ := hq'
    by_cases hqn : q.name = n
    · have hpmem : p ∈ ps := List.mem_of_find?_eq_some hfind
      have hpn : p.name = n := by
        have := List.find?_some hfind
        simpa using this
      have hqp : q = p :=
        List.inj_on_of_nodup_map hnod hq hpmem (by rw [hqn, hpn])
      subst hqp
      rw [if_pos hqn]
      obtain ⟨hvmin, hvmax, _⟩ := hinv q hq
      have hmm : q.min_value ≠ .pnone → q.max_value ≠ .pnone →
          pvLe q.min_value q.max_value = some true :=
        fun h1 h2 => pvLe_trans _ _ _ (hvmin h1) (hvmax h2)
      have hw := clampToBounds_within q v v' hclamp hmm
      exact ⟨fun h1 => hw.1 h1, fun h2 => hw.2 h2,
        fun hov => absurd hov (by simp)⟩
    · rw [if_neg hqn]
      exact hinv q hq
  · intro ps n ps' hstrong h
    simp only [clear_override, Option.bind_eq_bind, Option.bind_eq_some,
      Option.pure_def, Option.some_inj] at h
    obtain ⟨p, hfind, rfl⟩ := h
    intro q' hq'
    rw [List.mem_map] at hq'
    obtain ⟨q, hq, rfl⟩ := hq'
    obtain ⟨_, hdmin, hdmax⟩ := hstrong q hq
    by_cases hqn : q.name = n
    · rw [if_pos hqn]
      exact ⟨⟨fun h1 => hdmin h1, fun h2 => hdmax h2, fun _ => rfl⟩,
        fun h1 => hdmin h1, fun h2 => hdmax h2⟩
    · rw [if_neg hqn]
      exact hstrong q hq
  · intro ps nd hstrong hresp
    intro q' hq'
    rw [update_defaults, List.mem_map] at hq'
    obtain ⟨q, hq, rfl⟩ := hq'
    obtain ⟨⟨hvmin, hvmax, hvd⟩, hdmin, hdmax⟩ := hstrong q hq
    rcases hl : List.lookup q.name nd with _ | nv
    · simp only [hl]
      exact ⟨⟨hvmin, hvmax, hvd⟩, hdmin, hdmax⟩
    · simp only [hl]
      obtain ⟨hrmin, hrmax⟩ := hresp q hq nv hl
      cases hov : q.is_overridden with
      | true =>
        refine ⟨⟨fun h1 => ?_, fun h2 => ?_, fun hfalse => ?_⟩,
          fun h1 => hrmin h1, fun h2 => hrmax h2⟩
        · simpa [hov] using hvmin h1
        · simpa [hov] using hvmax h2
        · simp [hov] at hfalse
      | false =>
        refine ⟨⟨fun h1 => ?_, fun h2 => ?_, fun _ => ?_⟩,
          fun h1 => hrmin h1, fun h2 => hrmax h2⟩
        · simpa [hov] using hrmin h1
        · simpa [hov] using hrmax h2
        · simp [hov]
  · intro ps n v ps' hcl h
    simp only [set_override, Option.bind_eq_bind, Option.bind_eq_some,
      Option.pure_def, Option.some_inj] at h
    obtain ⟨p, _, v', _, rfl⟩ := h
    intro q' hq'
    rw [List.mem_map] at hq'
    obtain ⟨q, hq, rfl⟩ := hq'
    by_cases hqn : q.name = n
    · rw [if_pos hqn]
      intro hov
      exact absurd hov (by simp)
    · rw [if_neg hqn]
      exact hcl q hq
  · intro ps n ps' hcl h
    simp only [clear_override, Option.bind_eq_bind, Option.bind_eq_some,
      Option.pure_def, Option.some_inj] at h
    obtain ⟨p, _, rfl⟩ := h
    intro q' hq'
    rw [List.mem_map] at hq'
    obtain ⟨q, hq, rfl⟩ := hq'
    by_cases hqn : q.name = n
    · rw [if_pos hqn]
      intro _
      rfl
    · rw [if_neg hqn]
      exact hcl q hq
  · intro ps nd hcl
    intro q' hq'
    rw [update_defaults, List.mem_map] at hq'
    obtain ⟨q, hq, rfl⟩ := hq'
    rcases hl : List.lookup q.name nd with _ | nv
    · simp only [hl]
      exact hcl q hq
    · simp only [hl]
      cases hov : q.is_overridden with
      | true => intro hfalse; simp [hov] at hfalse
      | false => intro _; simp [hov]

/-- Claim C5, concrete instantiation of
`parameter_ops_invariant_preservation`: overriding the parameter of
`ps_bad_default` — which satisfies the plain invariant though its default
50 is out of bounds — clamps the supplied 20 to 10 and keeps the plain
invariant; on `ps_pair`, clearing the override restores the in-bounds
default 1 and refreshing the default of parameter b to 3 keeps the
strengthened invariant; and all three operations keep the
value-equals-default clause. -/
theorem parameter_ops_invariant_preservation_instance :
    set_invariant
      [{ name := "a", param_type := "length", default_value := .pnum 50,
         value := .pnum 10, is_overridden := true,
         min_value := .pnum 0, max_value := .pnum 10 }] ∧
    set_invariant_strong
      [{ name := "a", param_type := "length", default_value := .pnum 1,
         value := .pnum 1, is_overridden := false,
         min_value := .pnum 0, max_value := .pnum 10 },
       { name := "b", param_type := "length", default_value := .pnum 2,
         value := .pnum 2 }] ∧
    set_invariant_strong (update_defaults ps_pair [("b", .pnum 3)]) ∧
    set_value_default_clause
      [{ name := "a", param_type := "length", default_value := .pnum 50,
         value := .pnum 10, is_overridden := true,
         min_value := .pnum 0, max_value := .pnum 10 }] ∧
    set_value_default_clause
      [{ name := "a", param_type := "length", default_value := .pnum 1,
         value := .pnum 1, is_overridden := false,
         min_value := .pnum 0, max_value := .pnum 10 },
       { name := "b", param_type := "length", default_value := .pnum 2,
         value := .pnum 2 }] ∧
    set_value_default_clause (update_defaults ps_pair [("b", .pnum 3)]) := by
  refine ⟨?_, ?_, ?_, ?_, ?_, ?_⟩
  · exact parameter_ops_invariant_preservation.1 ps_bad_default "a"
      (.pnum 20) _ (by decide) (by decide) (by decide)
  · exact parameter_ops_invariant_preservation.2.1 ps_pair "a" _
      (by decide) (by decide)
  · exact parameter_ops_invariant_preservation.2.2.1 ps_pair
      [("b", .pnum 3)] (by decide) (by decide)
  · exact parameter_ops_invariant_preservation.2.2.2.1 ps_bad_default "a"
      (.pnum 20) _ (by decide) (by decide)
  · exact parameter_ops_invariant_preservation.2.2.2.2.1 ps_pair "a" _
      (by decide) (by decide)
  · exact parameter_ops_invariant_preservation.2.2.2.2.2 ps_pair
      [("b", .pnum 3)] (by decide)
